import Mathlib

/-!
Verification development for the `xbox-webapi-python` club/feed provider layer
(`xbox/webapi/api/provider/clubs` and `xbox/webapi/api/provider/feed`).

The Python sources are shallowly embedded: each provider operation's
response handling, header selection and URL/query construction is translated
into an executable Lean definition, and the spec's claims are settled as
theorems about those definitions.
-/

namespace XboxWebApi

/-- An HTTP response as exposed by the shared session collaborator: a numeric
status code and the raw body text.  (`resp.status` in
`set_presence_within_club` and `resp.status_code` elsewhere both name this
numeric status.) -/
structure Response where
  status_code : Nat
  text : String
deriving DecidableEq, Repr

/-- The alternative attribute name used by `set_presence_within_club`
(`resp.status`); it denotes the same numeric status of the response. -/
def Response.status (r : Response) : Nat := r.status_code

/-- Errors that a provider operation can surface. -/
inductive PyError where
  /-- HTTP status error raised by `resp.raise_for_status()`, carrying the
  response's original status code and body text. -/
  | statusError (status : Nat) (body : String)
  /-- Local `ValueError` raised before any network call, with its message. -/
  | valueError (msg : String)
  /-- `IndexError` from an unguarded sequence subscript. -/
  | indexError
deriving DecidableEq, Repr

/-- Whether a status code is a 2xx success code. -/
def is2xx (status : Nat) : Bool := 200 ≤ status && status ≤ 299

/-- Modelled from the spec: `resp.raise_for_status()` is supplied by the
shared HTTP session collaborator (not under `src/`); per the spec's error
design, "any non-2xx response fails the call, carrying the numeric status
and response body". -/
def raise_for_status (r : Response) : Except PyError Unit :=
  if is2xx r.status_code then .ok () else .error (.statusError r.status_code r.text)

/-- The three possible results of `delete_club`, mirroring its
`Union[ClubSummary, ClubReservation, None]` return: the stored string is the
response body handed to the corresponding `parse_raw`. -/
inductive DeleteClubResult where
  /-- `ClubReservation.parse_raw(resp.text)` (status 200). -/
  | reservation (body : String)
  /-- `ClubSummary.parse_raw(resp.text)` (status 202). -/
  | summary (body : String)
  /-- `None` (any other success status). -/
  | none
deriving DecidableEq, Repr

/-- The value a provider operation returns to its caller on the non-error
path.  `body s` stands for the model parsed from body `s` via `parse_raw`;
`flag` is the boolean returned by `set_presence_within_club`; `unit` is
Python `None`. -/
inductive PyValue where
  | body (s : String)
  | flag (b : Bool)
  | unit
  | deleteResult (r : DeleteClubResult)
deriving DecidableEq, Repr

/-- One constructor per provider operation of `ClubProvider` and
`FeedProvider` that issues an outbound request.  Operations that merely
delegate (`get_club`/`get_clubs` to `_send_clubhub_decoration_request`, the
roster add/remove/follow/ban/moderator wrappers to
`_update_users_club_roles`/`_set_users_club_roles`, and the four feed getters
to `_send_activity_request`) are represented by the single request they
delegate to. -/
inductive ProviderOp where
  | getClubSummary
  | getClubsOwned
  | claimClubName
  | createClub
  | transferClubOwnership
  | renameClub
  | deleteClub
  | suspendClub
  | unsuspendClub
  | sendClubhubDecorationRequest
  | getClubAssociations
  | getClubRecommendations
  | searchClubs
  | getPresenceCounts
  | setPresenceWithinClub
  | updateClubProfile
  | updateUsersClubRoles
  | setUsersClubRoles
  | deleteFeedItem
  | sendActivityRequest
  | getUserPins
  | postText
  | shareItem
  | getPostSummaries
  | getClubMessageHistory
  | deleteClubMessage
  | getClubMotd
  | setClubMotd
  | getClubReportedItems
  | sendClubReport
deriving DecidableEq, Repr, Fintype

/-- How each provider operation turns the HTTP response into its return
value, translated method by method from the sources.  Every operation calls
`resp.raise_for_status()` and then returns its parsed body (or `None`),
except `set_presence_within_club`, which never raises and returns the
boolean `resp.status == 204`, and `delete_club`, which branches on the
status code after raising. -/
def responseHandler : ProviderOp → Response → Except PyError PyValue
  | .getClubSummary, r => do raise_for_status r; return .body r.text
  | .getClubsOwned, r => do raise_for_status r; return .body r.text
  | .claimClubName, r => do raise_for_status r; return .body r.text
  | .createClub, r => do raise_for_status r; return .body r.text
  | .transferClubOwnership, r => do raise_for_status r; return .body r.text
  | .renameClub, r => do raise_for_status r; return .body r.text
  | .deleteClub, r => do
      raise_for_status r
      if r.status_code = 200 then return .deleteResult (.reservation r.text)
      else if r.status_code = 202 then return .deleteResult (.summary r.text)
      else return .deleteResult .none
  | .suspendClub, r => do raise_for_status r; return .body r.text
  | .unsuspendClub, r => do raise_for_status r; return .unit
  | .sendClubhubDecorationRequest, r => do raise_for_status r; return .body r.text
  | .getClubAssociations, r => do raise_for_status r; return .body r.text
  | .getClubRecommendations, r => do raise_for_status r; return .body r.text
  | .searchClubs, r => do raise_for_status r; return .body r.text
  | .getPresenceCounts, r => do raise_for_status r; return .body r.text
  | .setPresenceWithinClub, r => .ok (.flag (r.status == 204))
  | .updateClubProfile, r => do raise_for_status r; return .unit
  | .updateUsersClubRoles, r => do raise_for_status r; return .body r.text
  | .setUsersClubRoles, r => do raise_for_status r; return .body r.text
  | .deleteFeedItem, r => do raise_for_status r; return .unit
  | .sendActivityRequest, r => do raise_for_status r; return .body r.text
  | .getUserPins, r => do raise_for_status r; return .body r.text
  | .postText, r => do raise_for_status r; return .body r.text
  | .shareItem, r => do raise_for_status r; return .body r.text
  | .getPostSummaries, r => do raise_for_status r; return .body r.text
  | .getClubMessageHistory, r => do raise_for_status r; return .body r.text
  | .deleteClubMessage, r => do raise_for_status r; return .unit
  | .getClubMotd, r => do raise_for_status r; return .body r.text
  | .setClubMotd, r => do raise_for_status r; return .unit
  | .getClubReportedItems, r => do raise_for_status r; return .body r.text
  | .sendClubReport, r => do raise_for_status r; return .body r.text

/-- `_HEADERS_COMMON` from `ClubProvider`. -/
def HEADERS_COMMON : List (String × String) :=
  [("Accept", "application/json"),
   ("Accept-Language",
    "en-US, en, en-AU, en, en-GB, en, en-CA, en, en-AS, en, en-AT, en, en-BB, en")]

/-- `ClubProvider.HEADERS_CLUBACCOUNTS = _HEADERS_COMMON | \x7b"x-xbl-contract-version": "1"\x7d`. -/
def HEADERS_CLUBACCOUNTS : List (String × String) :=
  HEADERS_COMMON ++ [("x-xbl-contract-version", "1")]

/-- `ClubProvider.HEADERS_CLUBHUB`. -/
def HEADERS_CLUBHUB : List (String × String) :=
  HEADERS_COMMON ++ [("x-xbl-contract-version", "5")]

/-- `ClubProvider.HEADERS_CLUBPRESENCE`. -/
def HEADERS_CLUBPRESENCE : List (String × String) :=
  HEADERS_COMMON ++ [("x-xbl-contract-version", "1")]

/-- `ClubProvider.HEADERS_CLUBPROFILE`. -/
def HEADERS_CLUBPROFILE : List (String × String) :=
  HEADERS_COMMON ++ [("x-xbl-contract-version", "2")]

/-- `ClubProvider.HEADERS_CLUBROSTER`. -/
def HEADERS_CLUBROSTER : List (String × String) :=
  HEADERS_COMMON ++ [("x-xbl-contract-version", "4")]

/-- `FeedProvider.HEADERS_ACTIVITY`. -/
def HEADERS_ACTIVITY : List (String × String) := [("x-xbl-contract-version", "12")]

/-- `FeedProvider.HEADERS_USERPOSTS`. -/
def HEADERS_USERPOSTS : List (String × String) := [("x-xbl-contract-version", "2")]

/-- `FeedProvider.HEADERS_COMMENTS` (defined at the top of the class but,
notably, never referenced by any method). -/
def HEADERS_COMMENTS : List (String × String) := [("x-xbl-contract-version", "3")]

/-- `FeedProvider.HEADERS_CHATFEED`. -/
def HEADERS_CHATFEED : List (String × String) := [("x-xbl-contract-version", "1")]

/-- `FeedProvider.HEADERS_CLUBMODERATION`. -/
def HEADERS_CLUBMODERATION : List (String × String) := [("x-xbl-contract-version", "1")]

/-- `FeedProvider.COMMENTS_URL`. -/
def COMMENTS_URL : String := "https://comments.xboxlive.com"

/-- The `headers=` argument a Python call site can pass to the session: a
header dictionary, or — being dynamically typed — any other value, such as
the plain string `get_post_summaries` passes. -/
inductive HeadersArg where
  | dict (h : List (String × String))
  | rawString (s : String)
deriving DecidableEq, Repr

/-- The `headers=` argument each provider operation passes to the HTTP
session, read off call site by call site from the sources.
`get_clubs_owned` overrides the contract version to "2" on top of
`HEADERS_CLUBACCOUNTS`; `delete_feed_item` builds an inline dict; and
`get_post_summaries` passes `self.COMMENTS_URL` — a URL string — as its
`headers=` argument. -/
def requestHeaders : ProviderOp → HeadersArg
  | .getClubSummary => .dict HEADERS_CLUBACCOUNTS
  | .getClubsOwned => .dict (HEADERS_COMMON ++ [("x-xbl-contract-version", "2")])
  | .claimClubName => .dict HEADERS_CLUBACCOUNTS
  | .createClub => .dict HEADERS_CLUBACCOUNTS
  | .transferClubOwnership => .dict HEADERS_CLUBACCOUNTS
  | .renameClub => .dict HEADERS_CLUBACCOUNTS
  | .deleteClub => .dict HEADERS_CLUBACCOUNTS
  | .suspendClub => .dict HEADERS_CLUBACCOUNTS
  | .unsuspendClub => .dict HEADERS_CLUBACCOUNTS
  | .sendClubhubDecorationRequest => .dict HEADERS_CLUBHUB
  | .getClubAssociations => .dict HEADERS_CLUBHUB
  | .getClubRecommendations => .dict HEADERS_CLUBHUB
  | .searchClubs => .dict HEADERS_CLUBHUB
  | .getPresenceCounts => .dict HEADERS_CLUBPRESENCE
  | .setPresenceWithinClub => .dict HEADERS_CLUBPRESENCE
  | .updateClubProfile => .dict HEADERS_CLUBPROFILE
  | .updateUsersClubRoles => .dict HEADERS_CLUBROSTER
  | .setUsersClubRoles => .dict HEADERS_CLUBROSTER
  | .deleteFeedItem => .dict [("x-xbl-contract-version", "2")]
  | .sendActivityRequest => .dict HEADERS_ACTIVITY
  | .getUserPins => .dict HEADERS_ACTIVITY
  | .postText => .dict HEADERS_USERPOSTS
  | .shareItem => .dict HEADERS_USERPOSTS
  | .getPostSummaries => .rawString COMMENTS_URL
  | .getClubMessageHistory => .dict HEADERS_CHATFEED
  | .deleteClubMessage => .dict HEADERS_CHATFEED
  | .getClubMotd => .dict HEADERS_CHATFEED
  | .setClubMotd => .dict HEADERS_CHATFEED
  | .getClubReportedItems => .dict HEADERS_CLUBMODERATION
  | .sendClubReport => .dict HEADERS_CLUBMODERATION

/-- Whether an outbound `headers=` argument actually carries an
`x-xbl-contract-version` entry in an HTTP header dictionary. -/
def carriesContractVersion : HeadersArg → Bool
  | .dict h => h.any (fun kv => kv.1 == "x-xbl-contract-version")
  | .rawString _ => false

-- CLUB HUB endpoint construction ---------------------------------------------

/-- `ClubProvider.CLUBHUB_URL`. -/
def CLUBHUB_URL : String := "https://clubhub.xboxlive.com"

/-- `ClubProvider.SEPARATOR`. -/
def SEPARATOR : String := ","

/-- `ClubProvider._create_clubhub_id_endpoint`: a single string id is first
wrapped into a one-element list and `decorations=None` into `[]` (done here
by taking a list directly); a list of more than 10 ids raises `ValueError`
before any URL is built; otherwise the ids are comma-joined into one
parenthesized `Ids(...)`/`Xuid(...)` path segment, with an optional
`/decoration/` suffix. -/
def create_clubhub_id_endpoint (ids : List String) (is_xuid : Bool)
    (decorations : List String) : Except PyError String :=
  if ids.length > 10 then
    .error (.valueError ("Endpoint has more ids than the supported maximum (10)"))
  else
    let id_subpath := if !is_xuid then ("Ids") else ("Xuid")
    let endpoint :=
      CLUBHUB_URL ++ "/clubs/" ++ id_subpath ++ "(" ++ SEPARATOR.intercalate ids ++ ")"
    .ok (if !decorations.isEmpty then
      endpoint ++ "/decoration/" ++ ",".intercalate decorations
    else endpoint)

/-- The outbound GET request of
`ClubProvider._send_clubhub_decoration_request`: the endpoint is built
first, so when `_create_clubhub_id_endpoint` raises, no request (URL/header
pair) is ever produced and no network call is made. -/
def clubhub_decoration_request (club_ids : List String) (decorations : List String) :
    Except PyError (String × HeadersArg) := do
  let url ← create_clubhub_id_endpoint club_ids false decorations
  return (url, requestHeaders .sendClubhubDecorationRequest)

-- get_club / get_clubs -------------------------------------------------------

/-- `ClubProvider.get_club`: `return (await self.get_clubs([club_id], ...))[0]`
— an unguarded subscript of the club list parsed from the response, which in
Python raises `IndexError` on an empty list. -/
def get_club_from_clubs {α : Type} (clubs : List α) : Except PyError α :=
  match clubs with
  | [] => .error .indexError
  | c :: _ => .ok c

-- FEED: relative-date helper -------------------------------------------------

/-- A Python `datetime` value (time zone ignored; all helper arithmetic here
is on the date and time fields only). -/
structure PyDateTime where
  year : Nat
  month : Nat
  day : Nat
  hour : Nat
  minute : Nat
  second : Nat
deriving DecidableEq, Repr

/-- Gregorian leap-year test, as used by `calendar.monthrange`. -/
def isLeapYear (y : Nat) : Bool :=
  y % 4 == 0 && (y % 100 != 0 || y % 400 == 0)

/-- Number of days in the given month of the given year. -/
def daysInMonth (y m : Nat) : Nat :=
  if m = 2 then (if isLeapYear y then 29 else 28)
  else if m = 4 ∨ m = 6 ∨ m = 9 ∨ m = 11 then 30
  else 31

/-- Days since 1970-01-01 of a Gregorian date (valid for dates from 1970 on),
via the standard civil-calendar day count. -/
def daysFromCivil (y m d : Nat) : Nat :=
  let yr := if m ≤ 2 then y - 1 else y
  let era := yr / 400
  let yoe := yr % 400
  let mp := if m > 2 then m - 3 else m + 9
  let doy := (153 * mp + 2) / 5 + d - 1
  let doe := yoe * 365 + yoe / 4 - yoe / 100 + doy
  era * 146097 + doe - 719468

/-- Python weekday convention (Monday = 0) for a Gregorian date from 1970 on;
1970-01-01 was a Thursday (weekday 3). -/
def pythonWeekday (y m d : Nat) : Nat :=
  (daysFromCivil y m d + 3) % 7

/-- `calendar.monthrange(year, month)`: the weekday (Monday = 0) of the first
day of the month, and the number of days in the month. -/
def monthrange (year month : Nat) : Nat × Nat :=
  (pythonWeekday year month 1, daysInMonth year month)

/-- `FeedProvider._feed_start_date_time`: splits `months_ago` into whole
years and a remainder, keeps the current year and subtracts the remainder
from the current month when the current month number exceeds it, and
otherwise steps the year back and sets the month to 12; the day becomes
`monthrange(year, month)[int(end_of_month)]`. -/
def feed_start_date_time (months_ago : Nat) (end_of_month : Bool)
    (now : PyDateTime) : PyDateTime :=
  let years_ago := months_ago / 12
  let ma := months_ago % 12
  let year := if now.month > ma then now.year else now.year - (years_ago + 1)
  let month := if now.month > ma then now.month - ma else 12
  { now with
      year := year
      month := month
      day := if end_of_month then (monthrange year month).2 else (monthrange year month).1 }

-- FEED: activity request builder ---------------------------------------------

/-- Lowercase an ASCII string, as Python `str.lower()` does on the strings
involved here. -/
def pyLower (s : String) : String := String.mk (s.data.map Char.toLower)

/-- Python `str(x)` for an optional integer: `None` prints as `"None"`. -/
def pyStrOptNat : Option Nat → String
  | Option.none => "None"
  | some n => toString n

/-- Zero-pad a number to two digits, as `strftime` field formatting does. -/
def pad2 (n : Nat) : String :=
  if n < 10 then ("0") ++ toString n else toString n

/-- `datetime.strftime("%m/%d/%Y+%H:%M:%S")` for years with four digits. -/
def strftimeActivity (t : PyDateTime) : String :=
  pad2 t.month ++ "/" ++ pad2 t.day ++ "/" ++ toString t.year ++ "+" ++
    pad2 t.hour ++ ":" ++ pad2 t.minute ++ ":" ++ pad2 t.second

/-- Uppercase hexadecimal digit for a value below 16. -/
def hexDigit (n : Nat) : Char :=
  if n < 10 then Char.ofNat (48 + n) else Char.ofNat (55 + n)

/-- Whether `urllib.parse.quote` with `safe=""` leaves an ASCII character
unescaped: only the unreserved characters `A-Z a-z 0-9 _ . - ~`. -/
def quoteUnreserved (c : Char) : Bool :=
  (65 ≤ c.toNat && c.toNat ≤ 90) || (97 ≤ c.toNat && c.toNat ≤ 122) ||
  (48 ≤ c.toNat && c.toNat ≤ 57) || c == '_' || c == '.' || c == '-' || c == '~'

/-- `urllib.parse.quote(s, safe="")` over ASCII input: every character
outside the unreserved set becomes `%XX` with uppercase hex. -/
def urlQuote (s : String) : String :=
  String.mk (s.data.foldr (fun c acc =>
    if quoteUnreserved c then c :: acc
    else '%' :: hexDigit (c.toNat / 16) :: hexDigit (c.toNat % 16) :: acc) [])

/-- The structured parameter set accepted by
`FeedProvider._send_activity_request` via `activity_params` (the leftover
kwargs, not modelled here, are forwarded to the session verbatim). -/
structure ActivityRequestParams where
  num_items : Option Nat := Option.none
  include_self : Option Bool := Option.none
  activity_types : Option (List String) := Option.none
  exclude_types : Option (List String) := Option.none
  start_date_time : Option PyDateTime := Option.none
deriving Repr

/-- The query-parameter dictionary `FeedProvider._send_activity_request`
builds, in insertion order.  Translated statement by statement: `numItems`
is `str(num_items)`; `includeSelf` — exactly as in the source — is set, when
`include_self` is not `None`, to `str(num_items).lower()`; the type lists
are semicolon-joined when non-empty; `startDateTime` is the
`%m/%d/%Y+%H:%M:%S`-formatted start timestamp percent-encoded with
`quote(..., safe="")`. -/
def buildActivityParams (p : ActivityRequestParams) : List (String × String) :=
  (match p.num_items with
   | some n => [("numItems", toString n)]
   | Option.none => []) ++
  (match p.include_self with
   | some _ => [("includeSelf", pyLower (pyStrOptNat p.num_items))]
   | Option.none => []) ++
  (match p.activity_types with
   | some l => if !l.isEmpty then [("activityTypes", ";".intercalate l)] else []
   | Option.none => []) ++
  (match p.exclude_types with
   | some l => if !l.isEmpty then [("excludeTypes", ";".intercalate l)] else []
   | Option.none => []) ++
  (match p.start_date_time with
   | some t => [("startDateTime", urlQuote (strftimeActivity t))]
   | Option.none => [])

-- CLUB SETTINGS CONTRACT ------------------------------------------------------

/-- Python `str.capitalize()` on the lowercase ASCII words appearing in
field names: uppercase the first character, keep the rest. -/
def pyCapitalize : List Char → List Char
  | [] => []
  | c :: cs => c.toUpper :: cs

/-- Split a character list on underscores, mirroring Python
`str.split("_")` on the snake_case names involved. -/
def splitOnUnderscore : List Char → List Char → List (List Char)
  | [], acc => [acc.reverse]
  | c :: cs, acc =>
    if c = '_' then acc.reverse :: splitOnUnderscore cs []
    else splitOnUnderscore cs (c :: acc)

/-- Modelled from the spec: `to_pascal` from `xbox.webapi.common.models`
(not under `src/`), converting a snake_case field name to the PascalCase
wire casing used by the modified-fields list. -/
def to_pascal (s : String) : String :=
  String.mk (((splitOnUnderscore s.data []).map pyCapitalize).flatten)

/-- The fields of `ClubSettingsContract` in declaration order, each with the
flag of whether its annotation is `Optional[...]` (pydantic v1 gives
`Optional` fields an implicit `None` default; a field without it is
required).  `creation_date_utc` is declared as a bare `datetime`. -/
def clubSettingsContractFields : List (String × Bool) :=
  [("description", true),
   ("creation_date_utc", false),
   ("background_image_url", true),
   ("display_image_url", true),
   ("preferred_color", true),
   ("activity_feed_enabled", true),
   ("chat_enabled", true),
   ("lfg_enabled", true),
   ("preferred_locale", true),
   ("request_to_join_enabled", true),
   ("leave_enabled", true),
   ("transfer_ownership_enabled", true),
   ("is_promoted_club", true),
   ("tags", true),
   ("titles", true),
   ("who_can_post_to_feed", true),
   ("who_can_invite", true),
   ("who_can_chat", true),
   ("who_can_create_lfg", true),
   ("who_can_join_lfg", true),
   ("mature_content_enabled", true),
   ("watch_club_titles_only", true),
   ("get_recommendation_enabled", true),
   ("search_enabled", true),
   ("delete_enabled", true),
   ("rename_enabled", true),
   ("joinability", true)]

/-- The field names of `ClubSettingsContract` (the keys of
`ClubSettingsContract.__fields__` that `update_club_profile` tests
membership against). -/
def clubSettingsContractFieldNames : List String :=
  clubSettingsContractFields.map Prod.fst

/-- pydantic v1 model construction `ClubSettingsContract(**provided)`:
validation succeeds exactly when every field that is not `Optional` (has no
implicit default) is among the provided keyword names. -/
def constructClubSettingsContract (provided : List String) : Except String Unit :=
  if clubSettingsContractFields.all (fun f => f.2 || provided.contains f.1) then
    .ok ()
  else
    .error ("validation error: field required")

/-- The outcome of the request-building loop of
`ClubProvider.update_club_profile`: which contract fields were set (with the
string rendering of their values), the `modifiedFields` list, and the keys
redirected into transport kwargs. -/
structure UpdateProfileBuild where
  contract_set : List (String × String)
  modified_fields : List String
  request_kwargs : List String
deriving DecidableEq, Repr

/-- The `for key, value in setting_values.items()` loop of
`ClubProvider.update_club_profile`, one step per provided pair, in order:
keys that are not `ClubSettingsContract` fields go to the transport kwargs;
recognized keys are set on the contract only when their value is not
`None`, and are appended to `modified_fields` as `to_pascal(key)` either
way.  A value of `Option.none` is Python `None`.  In the method this loop
runs only after the `contract = ClubSettingsContract()` construction that
precedes it has succeeded; see `update_club_profile_request`. -/
def update_club_profile_build (setting_values : List (String × Option String)) :
    UpdateProfileBuild :=
  match setting_values with
  | [] => { contract_set := [], modified_fields := [], request_kwargs := [] }
  | (key, value) :: rest =>
    let tail := update_club_profile_build rest
    if !clubSettingsContractFieldNames.contains key then
      { tail with request_kwargs := key :: tail.request_kwargs }
    else
      { tail with
          contract_set :=
            (match value with
             | some v => (key, v) :: tail.contract_set
             | Option.none => tail.contract_set)
          modified_fields := to_pascal key :: tail.modified_fields }

/-- `ClubProvider.update_club_profile` up to the request payload: the method
body begins with `contract = ClubSettingsContract()` — a construction from
the empty field set — and only then runs the settings loop and serializes
the contract.  pydantic v1 validates required fields at construction, so
the loop and payload are reached only when that empty construction
succeeds; when it raises, the `ValidationError` propagates to the caller
before any payload or `modifiedFields` list exists. -/
def update_club_profile_request (setting_values : List (String × Option String)) :
    Except String UpdateProfileBuild := do
  let _ ← constructClubSettingsContract []
  return update_club_profile_build setting_values

-- FEED: activity item deserialization ----------------------------------------

/-- The members of the `activity_items` union of `ActivityResponse`, in
their declared order: `AchievementActivityItem`, `ScreenshotActivityItem`,
`ClipActivityItem`, `UserPostActivityItem`, `ContainerActivityItem`,
`ActivityItem`. -/
inductive FeedItemModel where
  | achievement
  | screenshot
  | clip
  | userPost
  | container
  | activity
deriving DecidableEq, Repr

/-- The wire values of the `ActivityItemType` enum. -/
def activityItemTypeValues : List String :=
  ["Unknown", "Played", "Followed", "TextPost", "UserPost", "Achievement",
   "LegacyAchievement", "Screenshot", "GameDVR", "BroadcastStart",
   "BroadcastEnd", "GamertagChanged", "Container"]

/-- The required (non-`Optional`) fields of `BaseActivityItem`, under the
camelCase wire aliases. -/
def baseActivityItemRequired : List String :=
  ["description", "hasUgc", "activityItemType", "shortDescription",
   "itemText", "hasLiked"]

/-- The required fields added by `ActivityItem` on top of
`BaseActivityItem` (the remaining declared fields are `Optional`). -/
def activityItemRequired : List String :=
  baseActivityItemRequired ++
    ["date", "contentType", "shareRoot", "feedItemId", "itemRoot",
     "authorInfo", "userXuid"]

/-- The achievement-specific fields declared by `AchievementActivityItem`
(all required). -/
def achievementSpecificFields : List String :=
  ["achievementScid", "achievementId", "achievementType", "achievementIcon",
   "achievementName", "rarityCategory", "rarityPercentage", "gamerscore",
   "achievementDescription", "isSecret", "hasAppAward", "hasArtAward"]

/-- The clip-specific fields declared by `ClipActivityItem`. -/
def clipSpecificFields : List String :=
  ["clipCaption", "clipId", "clipName", "clipScid", "clipThumbnail",
   "dateRecorded", "durationInSeconds"]

/-- The screenshot-specific fields declared by `ScreenshotActivityItem`. -/
def screenshotSpecificFields : List String :=
  ["screenshotId", "screenshotName", "screenshotScid",
   "screenshotThumbnail", "screenshotUri"]

/-- The user-post-specific fields declared by `UserPostActivityItem`. -/
def userPostSpecificFields : List String :=
  ["postType", "postDetails", "timeline"]

/-- The container-specific fields declared by `ContainerActivityItem`
(which extends `BaseActivityItem`, not `ActivityItem`). -/
def containerSpecificFields : List String :=
  ["itemSource", "feedItems"]

/-- The required field set of each union member. -/
def requiredFieldsOf : FeedItemModel → List String
  | .achievement => activityItemRequired ++ achievementSpecificFields
  | .screenshot => activityItemRequired ++ screenshotSpecificFields
  | .clip => activityItemRequired ++ clipSpecificFields
  | .userPost => activityItemRequired ++ userPostSpecificFields
  | .container => baseActivityItemRequired ++ containerSpecificFields
  | .activity => activityItemRequired

/-- A feed item as it arrives in a JSON response: its declared
`activityItemType` tag value, and the names of the fields present in the
object (values assumed well-typed for the fields they populate; pydantic
ignores extra fields under the default config). -/
structure FeedItemJson where
  activityItemType : String
  fields : List String
deriving DecidableEq, Repr

/-- pydantic v1 validation of a feed-item object against one union member:
all of the member's required fields are present, and the declared
`activityItemType` value is a member of the `ActivityItemType` enum. -/
def validatesAs (item : FeedItemJson) (m : FeedItemModel) : Bool :=
  activityItemTypeValues.contains item.activityItemType &&
    (requiredFieldsOf m).all item.fields.contains

/-- The declared order of the `activity_items` union of
`ActivityResponse`. -/
def activityItemsUnionOrder : List FeedItemModel :=
  [.achievement, .screenshot, .clip, .userPost, .container, .activity]

/-- pydantic v1 resolution of the `activity_items` union for a JSON object:
with `smart_union`, a plain dict (never an instance of a member) is
validated against each member left to right and the first success is kept;
`Option.none` is the `ValidationError` case where no member accepts the
object. -/
def parseActivityItem (item : FeedItemJson) : Option FeedItemModel :=
  activityItemsUnionOrder.find? (validatesAs item)

/-- All fields (required and `Optional`) exposed by a union member once
constructed. -/
def modelFields : FeedItemModel → List String
  | .achievement => requiredFieldsOf .achievement ++
      ["bingId", "contentImageUri", "contentTitle", "gameMediaContentLocators",
       "platform", "titleId", "uploadTitleId", "ugcCaption", "itemImage",
       "trustedItemImage", "viewCount", "numLikes", "numComments", "numShares",
       "numViews", "pinned"]
  | .screenshot => requiredFieldsOf .screenshot ++
      ["bingId", "contentImageUri", "contentTitle", "gameMediaContentLocators",
       "platform", "titleId", "uploadTitleId", "ugcCaption", "itemImage",
       "trustedItemImage", "viewCount", "numLikes", "numComments", "numShares",
       "numViews", "pinned"]
  | .clip => requiredFieldsOf .clip ++
      ["bingId", "contentImageUri", "contentTitle", "gameMediaContentLocators",
       "platform", "titleId", "uploadTitleId", "ugcCaption", "itemImage",
       "trustedItemImage", "viewCount", "numLikes", "numComments", "numShares",
       "numViews", "pinned"]
  | .userPost => requiredFieldsOf .userPost ++
      ["bingId", "contentImageUri", "contentTitle", "gameMediaContentLocators",
       "platform", "titleId", "uploadTitleId", "ugcCaption", "itemImage",
       "trustedItemImage", "viewCount", "numLikes", "numComments", "numShares",
       "numViews", "pinned"]
  | .container => requiredFieldsOf .container
  | .activity => requiredFieldsOf .activity ++
      ["bingId", "contentImageUri", "contentTitle", "gameMediaContentLocators",
       "platform", "titleId", "uploadTitleId", "ugcCaption", "itemImage",
       "trustedItemImage", "viewCount", "numLikes", "numComments", "numShares",
       "numViews", "pinned"]

/-- Whether a resolved union member exposes the achievement-specific
fields. -/
def exposesAchievementFields (m : FeedItemModel) : Bool :=
  achievementSpecificFields.all (modelFields m).contains

-- ─────────────────────────────────────────────────────────────────────────────
-- Theorems
-- ─────────────────────────────────────────────────────────────────────────────

/-- Helper: once `raise_for_status` fails, the rest of the method body is
never reached and the status error propagates. -/
theorem raise_then_error {α : Type} (r : Response) (h : is2xx r.status_code = false)
    (f : Unit → Except PyError α) :
    (raise_for_status r >>= f) = Except.error (.statusError r.status_code r.text) := by
  have hr : raise_for_status r = Except.error (.statusError r.status_code r.text) := by
    simp [raise_for_status, h]
  rw [hr]
  rfl

/-- Claim C1 (counterexample): `set_presence_within_club` does not call
`raise_for_status`; on a non-2xx response (here 400 with body text) it
returns the plain boolean `False` — a normal, non-error return value —
contradicting the claim that no operation converts a non-2xx response into
a normal return. -/
theorem set_presence_non2xx_returns_false :
    responseHandler ProviderOp.setPresenceWithinClub
        { status_code := 400, text := "Bad Request" } =
      Except.ok (PyValue.flag false) := rfl

/-- Claim C1 (amended): every provider operation of `ClubProvider` and
`FeedProvider` except `set_presence_within_club` fails on a non-2xx
response with an error carrying the response's original status code and
body text. -/
theorem provider_non2xx_raises (op : ProviderOp) (r : Response)
    (hop : op ≠ ProviderOp.setPresenceWithinClub)
    (h : is2xx r.status_code = false) :
    responseHandler op r = Except.error (.statusError r.status_code r.text) := by
  cases op <;> first
    | exact absurd rfl hop
    | exact raise_then_error r h _

/-- Claim C1 (witness): `get_club_summary` on a 404 response surfaces the
status error with the original code and body. -/
theorem provider_non2xx_raises_witness :
    responseHandler ProviderOp.getClubSummary { status_code := 404, text := "Not Found" } =
      Except.error (.statusError 404 "Not Found") :=
  provider_non2xx_raises ProviderOp.getClubSummary
    { status_code := 404, text := "Not Found" } (by decide) (by decide)

/-- Claim C2 (confirmed): on a successful response, `delete_club` returns
the `ClubReservation` parse of the body for status 200, the `ClubSummary`
parse for status 202, and `None` for any other success status, so the
three outcomes of club deletion stay distinguishable. -/
theorem delete_club_status_branches (r : Response) (h : is2xx r.status_code = true) :
    responseHandler ProviderOp.deleteClub r =
      Except.ok (PyValue.deleteResult
        (if r.status_code = 200 then DeleteClubResult.reservation r.text
         else if r.status_code = 202 then DeleteClubResult.summary r.text
         else DeleteClubResult.none)) := by
  have hr : raise_for_status r = Except.ok () := by simp [raise_for_status, h]
  by_cases h200 : r.status_code = 200
  · simp [responseHandler, hr, h200]
  · by_cases h202 : r.status_code = 202
    · simp [responseHandler, hr, h200, h202]
    · simp [responseHandler, hr, h200, h202]

/-- Claim C2 (witness): the three branches at concrete success statuses
200, 202 and 204. -/
theorem delete_club_status_branches_witness :
    responseHandler ProviderOp.deleteClub { status_code := 200, text := "B" } =
      Except.ok (PyValue.deleteResult (DeleteClubResult.reservation "B")) ∧
    responseHandler ProviderOp.deleteClub { status_code := 202, text := "B" } =
      Except.ok (PyValue.deleteResult (DeleteClubResult.summary "B")) ∧
    responseHandler ProviderOp.deleteClub { status_code := 204, text := "B" } =
      Except.ok (PyValue.deleteResult DeleteClubResult.none) :=
  ⟨(delete_club_status_branches { status_code := 200, text := "B" } (by decide)).trans rfl,
   (delete_club_status_branches { status_code := 202, text := "B" } (by decide)).trans rfl,
   (delete_club_status_branches { status_code := 204, text := "B" } (by decide)).trans rfl⟩

/-- Claim C3 (counterexample): an item whose declared `activityItemType`
tag is "Screenshot" but whose fields are those of an achievement item is
resolved by the union to `AchievementActivityItem` — which exposes the
achievement-specific fields — so resolution is not keyed by the tag, and a
"Screenshot"-tagged item can expose achievement fields. -/
theorem screenshot_tagged_item_parses_as_achievement :
    parseActivityItem
        { activityItemType := "Screenshot",
          fields := requiredFieldsOf FeedItemModel.achievement } =
      some FeedItemModel.achievement ∧
    exposesAchievementFields FeedItemModel.achievement = true :=
  ⟨rfl, rfl⟩

/-- Claim C3 (amended): union resolution is structural — each incoming item
is validated against the members in declared order (Achievement,
Screenshot, Clip, UserPost, Container, generic ActivityItem) and the first
member whose required fields are all present wins, the declared tag only
having to be a valid enum value.  An item carrying exactly the fields of a
member resolves to that member whatever its tag says; Achievement items
expose achievement-specific fields and Screenshot items do not. -/
theorem activity_union_resolves_structurally :
    parseActivityItem
        { activityItemType := "Achievement",
          fields := requiredFieldsOf FeedItemModel.achievement } = some FeedItemModel.achievement ∧
    parseActivityItem
        { activityItemType := "Screenshot",
          fields := requiredFieldsOf FeedItemModel.screenshot } = some FeedItemModel.screenshot ∧
    parseActivityItem
        { activityItemType := "GameDVR",
          fields := requiredFieldsOf FeedItemModel.clip } = some FeedItemModel.clip ∧
    parseActivityItem
        { activityItemType := "UserPost",
          fields := requiredFieldsOf FeedItemModel.userPost } = some FeedItemModel.userPost ∧
    parseActivityItem
        { activityItemType := "Container",
          fields := requiredFieldsOf FeedItemModel.container } = some FeedItemModel.container ∧
    parseActivityItem
        { activityItemType := "Played",
          fields := requiredFieldsOf FeedItemModel.activity } = some FeedItemModel.activity ∧
    parseActivityItem
        { activityItemType := "Achievement",
          fields := requiredFieldsOf FeedItemModel.screenshot } = some FeedItemModel.screenshot ∧
    exposesAchievementFields FeedItemModel.achievement = true ∧
    exposesAchievementFields FeedItemModel.screenshot = false :=
  ⟨rfl, rfl, rfl, rfl, rfl, rfl, rfl, rfl, rfl⟩

/-- Claim C4 (code bug): evaluated against reference date 2024-01-15, the
helper with `months_ago=3, end_of_month=True` returns the last day of
December 2023, not of October 2023: in the rollover branch the code sets
`month = 12` instead of subtracting the remaining months, contradicting
both the claim and the call-site comment that the default start date is
"2-3 months ago". -/
theorem feed_start_date_time_rollover_clamps_to_december :
    feed_start_date_time 3 true
        { year := 2024, month := 1, day := 15, hour := 0, minute := 0, second := 0 } =
      { year := 2023, month := 12, day := 31, hour := 0, minute := 0, second := 0 } ∧
    feed_start_date_time 3 true
        { year := 2024, month := 1, day := 15, hour := 0, minute := 0, second := 0 } ≠
      { year := 2023, month := 10, day := 31, hour := 0, minute := 0, second := 0 } := by
  decide

/-- Claim C5 (code bug): `update_club_profile` raises before any patch
payload or `modifiedFields` list is built, for every setting set: the
method starts with `contract = ClubSettingsContract()`, and since
`creation_date_utc` is a required field, that empty construction fails
pydantic validation on every call, so the claimed payload/modifiedFields
round-trip never happens. -/
theorem update_club_profile_always_raises :
    update_club_profile_request [("description", some "hello")] =
      Except.error ("validation error: field required") ∧
    update_club_profile_request [("description", Option.none)] =
      Except.error ("validation error: field required") ∧
    update_club_profile_request [] =
      Except.error ("validation error: field required") :=
  ⟨rfl, rfl, rfl⟩

/-- Claim C6 (confirmed): for at most 10 club ids the batch-endpoint
builder produces the single comma-joined parenthesized `Ids(...)` path
segment (with the optional decoration suffix); for more than 10 ids it
raises `ValueError` locally, and `_send_clubhub_decoration_request` then
produces no request at all, so no network call is made. -/
theorem clubhub_batch_endpoint (ids decorations : List String) :
    (ids.length ≤ 10 →
      create_clubhub_id_endpoint ids false decorations =
        Except.ok (
          let endpoint := CLUBHUB_URL ++ "/clubs/" ++ "Ids" ++ "(" ++
            SEPARATOR.intercalate ids ++ ")"
          if !decorations.isEmpty then
            endpoint ++ "/decoration/" ++ ",".intercalate decorations
          else endpoint)) ∧
    (10 < ids.length →
      create_clubhub_id_endpoint ids false decorations =
        Except.error (PyError.valueError ("Endpoint has more ids than the supported maximum (10)")) ∧
      clubhub_decoration_request ids decorations =
        Except.error (PyError.valueError ("Endpoint has more ids than the supported maximum (10)"))) := by
  constructor
  · intro h
    have hn : ¬ ids.length > 10 := by omega
    simp [create_clubhub_id_endpoint, hn]
  · intro h
    have he : create_clubhub_id_endpoint ids false decorations =
        Except.error (PyError.valueError ("Endpoint has more ids than the supported maximum (10)")) := by
      simp [create_clubhub_id_endpoint, h]
    refine ⟨he, ?_⟩
    unfold clubhub_decoration_request
    rw [he]
    rfl

/-- Claim C6 (witness): two ids with a decoration give the comma-joined
segment; eleven ids fail with the `ValueError` and produce no request. -/
theorem clubhub_batch_endpoint_witness :
    create_clubhub_id_endpoint ["123", "456"] false ["detail"] =
      Except.ok "https://clubhub.xboxlive.com/clubs/Ids(123,456)/decoration/detail" ∧
    clubhub_decoration_request ["0", "1", "2", "3", "4", "5", "6", "7", "8", "9", "10"] [] =
      Except.error (PyError.valueError ("Endpoint has more ids than the supported maximum (10)")) :=
  ⟨((clubhub_batch_endpoint ["123", "456"] ["detail"]).1 (by decide)).trans rfl,
   ((clubhub_batch_endpoint ["0", "1", "2", "3", "4", "5", "6", "7", "8", "9", "10"] []).2
      (by decide)).2⟩

/-- Claim C7 (code bug): the activity request builder fills `numItems`,
joins type lists with semicolons and percent-encodes the
`MM/DD/YYYY+HH:MM:SS` start timestamp, but the `includeSelf` query value is
`str(num_items).lower()` — the item count, not the include-self flag: with
`num_items=20, include_self=True` the query carries `includeSelf=20`, and
with `num_items` absent it carries `includeSelf=none`. -/
theorem activity_params_include_self_uses_num_items :
    buildActivityParams { num_items := some 20, include_self := some true } =
      [("numItems", "20"), ("includeSelf", "20")] ∧
    buildActivityParams { include_self := some true } = [("includeSelf", "none")] ∧
    buildActivityParams
        { activity_types := some ["Achievement", "Screenshot"],
          start_date_time := some
            { year := 2024, month := 1, day := 15, hour := 12, minute := 30, second := 5 } } =
      [("activityTypes", "Achievement;Screenshot"),
       ("startDateTime", "01%2F15%2F2024%2B12%3A30%3A05")] :=
  ⟨rfl, rfl, rfl⟩

/-- Claim C8 (code bug): `creation_date_utc` is declared as a bare
`datetime`, so pydantic treats it as required and constructing the contract
from the empty field set — exactly what `update_club_profile` does with
`ClubSettingsContract()` — fails validation; providing just that one field
is what makes construction succeed, so not every field is optional. -/
theorem club_settings_contract_requires_creation_date :
    constructClubSettingsContract [] = Except.error ("validation error: field required") ∧
    ("creation_date_utc", false) ∈ clubSettingsContractFields ∧
    constructClubSettingsContract ["creation_date_utc"] = Except.ok () := by
  refine ⟨rfl, by decide, rfl⟩

/-- Claim C9 (code bug): `get_post_summaries` passes `self.COMMENTS_URL` —
the comments service base URL string — as its `headers=` argument instead
of `HEADERS_COMMENTS`, so its outbound request carries no
`x-xbl-contract-version: 3` header even though the class defines that
header table; every other provider operation does carry its family's
contract-version header. -/
theorem get_post_summaries_headers_are_a_url :
    requestHeaders ProviderOp.getPostSummaries = HeadersArg.rawString COMMENTS_URL ∧
    carriesContractVersion (requestHeaders ProviderOp.getPostSummaries) = false ∧
    HEADERS_COMMENTS = [("x-xbl-contract-version", "3")] ∧
    (∀ op : ProviderOp, op = ProviderOp.getPostSummaries ∨
      carriesContractVersion (requestHeaders op) = true) := by
  refine ⟨rfl, rfl, rfl, ?_⟩
  decide

/-- Claim C10 (confirmed): `get_club` unconditionally subscripts the club
list returned by `get_clubs` at index 0: on an empty list it fails with an
unguarded `IndexError` (not a validation or transport error), and it
returns a club — the first one — exactly when the parsed response contains
at least one club. -/
theorem get_club_unguarded_head (α : Type) (c : α) (rest : List α) :
    get_club_from_clubs ([] : List α) = Except.error PyError.indexError ∧
    get_club_from_clubs (c :: rest) = Except.ok c :=
  ⟨rfl, rfl⟩

end XboxWebApi
